import Mathlib

/-!
Shallow embedding of the reasoning-session core of the `thinking-machines`
repository (`src/utils/llm.py`, `src/utils/ui.py`, `src/utils/cli.py`).

Conventions of the embedding:
* Python `str` is Lean `String` (character-level operations work on `List Char`).
* Python `int` is `Int` (or `Nat` where the source value is a provider token
  count), Python `float` is modelled by the exact rationals `ℚ`.
* The external collaborators (the OpenAI HTTP transport, `json.loads`,
  `json_repair.repair_json`) are parameters of the embedded functions:
  a transport is `List Turn → Except E (String × U)`, a strict JSON parser is
  `String → Except E J`, a repairer is `String → Except E String`
  (`Except.error` models a raised exception).
* In-place mutation of the Python `messages` list is modelled by returning the
  resulting transcript alongside the operation's result.
-/

namespace ThinkingMachines

/-- One chat message of a transcript: a role (`"system"`, `"user"` or
`"assistant"`) and its text content. -/
structure Turn where
  role : String
  content : String
deriving DecidableEq, Repr

/-- The backtick character, written as a code point. -/
def btick : Char := Char.ofNat 96

/-- Python's `\s` character class (ASCII part): space, tab, newline,
carriage return, vertical tab, form feed. -/
def isPySpace (c : Char) : Bool :=
  c = ' ' || c = '\t' || c = '\n' || c = Char.ofNat 13 || c = Char.ofNat 11 || c = Char.ofNat 12

/-- Does the character list start with a triple-backtick fence? -/
def isFenceStart : List Char → Bool
  | a :: b :: c :: _ => a = btick && b = btick && c = btick
  | _ => false

/-- Consume the optional `json` tag right after an opening fence
(the `(?:json)?` part of the extraction regex). -/
def dropJsonTag : List Char → List Char
  | 'j' :: 's' :: 'o' :: 'n' :: rest => rest
  | l => l

/-- Is the list a (possibly empty) whitespace run followed by a closing
fence?  This is the `\s*` + three backticks tail of the extraction regex. -/
def wsThenFence (l : List Char) : Bool :=
  isFenceStart (l.dropWhile isPySpace)

/-- The lazy capture group `([\s\S]*?)` of the extraction regex: take the
shortest prefix whose remainder is whitespace followed by a closing fence;
`none` when no closing fence exists. -/
def captureUpTo : List Char → Option (List Char)
  | [] => none
  | c :: cs =>
    if wsThenFence (c :: cs) then some []
    else
      match captureUpTo cs with
      | some cap => some (c :: cap)
      | none => none

/-- Leftmost match of the fenced-block regex
(three backticks, optional `json` tag, greedy `\s*`, lazy capture, `\s*`,
three backticks): scan for the first opening fence from which a full match
succeeds and return its capture group. -/
def findFirstCapture : List Char → Option (List Char)
  | [] => none
  | c :: cs =>
    if isFenceStart (c :: cs) then
      match captureUpTo ((dropJsonTag (cs.drop 2)).dropWhile isPySpace) with
      | some cap => some cap
      | none => findFirstCapture cs
    else findFirstCapture cs

/-- Python `str.strip()` (ASCII whitespace). -/
def stripChars (l : List Char) : List Char :=
  ((l.dropWhile isPySpace).reverse.dropWhile isPySpace).reverse

/-- Embedding of `LLMClient._extract_json_from_markdown`: return the first regex match's
capture, stripped, or the stripped original text when the regex finds no
fenced block. -/
def extract_json_from_markdown (text : String) : String :=
  match findFirstCapture text.data with
  | some cap => (stripChars cap).asString
  | none => (stripChars text.data).asString

/-- Embedding of `LLMClient._parse_response_content`: the three-stage tolerant parsing
cascade.  `jsonParse` embeds strict `json.loads`, `repair` embeds
`json_repair.repair_json`; stage 3 is repair followed by a strict parse of
the repaired text, and its failure (of either part) is the error the raised
`ValueError` carries. -/
def parse_response_content {E J : Type} (jsonParse : String → Except E J)
    (repair : String → Except E String) (content : String) : Except E J :=
  match jsonParse content with
  | .ok v => .ok v
  | .error _ =>
    let extracted := extract_json_from_markdown content
    match jsonParse extracted with
    | .ok v => .ok v
    | .error _ => (repair extracted).bind jsonParse

/-- Embedding of `LLMClient.format_task_message`: the initial task turn's text, the
optional lines appended only when the parameter differs from its default. -/
def format_task_message (task : String) (mode : String) (language : String)
    (max_steps : Int) : String :=
  let message := "TASK: ```" ++ task ++ "```\n"
  let message := if mode != "EXPLORE_OPTIMAL" then message ++ "MODE: " ++ mode ++ "\n" else message
  let message :=
    if language != "English" then message ++ "REASONING_LANGUAGE: " ++ language ++ "\n" else message
  let message :=
    if max_steps != 10 then message ++ "MAX_STEPS: " ++ toString max_steps ++ "\n" else message
  message

/-- Embedding of `LLMClient.get_completion`: prepend the system turn, call the transport,
parse the raw assistant text; a transport failure or a parse failure aborts
the whole call.  On success it returns the parsed object, the provider usage
payload and the raw assistant text (the caller re-reads
`response.choices[0].message.content`, which is the same string). -/
def get_completion {E J U : Type} (system_prompt : String)
    (transport : List Turn → Except E (String × U))
    (jsonParse : String → Except E J) (repair : String → Except E String)
    (messages : List Turn) : Except E (J × U × String) :=
  let full_messages : List Turn := ⟨"system", system_prompt⟩ :: messages
  match transport full_messages with
  | .error e => .error e
  | .ok (raw, usage) =>
    match parse_response_content jsonParse repair raw with
    | .error e => .error e
    | .ok parsed => .ok (parsed, usage, raw)

/-- Embedding of `LLMClient.start_reasoning`: build the task turn, call the transport and,
on success, append the raw assistant reply.  The first component is the state
of the (mutated-in-place) `messages` list when the call returns or raises. -/
def start_reasoning {E J U : Type} (system_prompt : String)
    (transport : List Turn → Except E (String × U))
    (jsonParse : String → Except E J) (repair : String → Except E String)
    (task : String) (mode : String) (language : String) (max_steps : Int) :
    List Turn × Except E (J × U) :=
  let task_message := format_task_message task mode language max_steps
  let messages : List Turn := [⟨"user", task_message⟩]
  match get_completion system_prompt transport jsonParse repair messages with
  | .error e => (messages, .error e)
  | .ok (parsed, usage, raw) => (messages ++ [⟨"assistant", raw⟩], .ok (parsed, usage))

/-- Embedding of `LLMClient.continue_reasoning`: append the user command turn, call the
transport and, on success, append the raw assistant reply.  The first
component is the state of the (mutated-in-place) `messages` list when the
call returns or raises. -/
def continue_reasoning {E J U : Type} (system_prompt : String)
    (transport : List Turn → Except E (String × U))
    (jsonParse : String → Except E J) (repair : String → Except E String)
    (messages : List Turn) (command : String) :
    List Turn × Except E (J × U) :=
  let messages1 := messages ++ [⟨"user", command⟩]
  match get_completion system_prompt transport jsonParse repair messages1 with
  | .error e => (messages1, .error e)
  | .ok (parsed, usage, raw) => (messages1 ++ [⟨"assistant", raw⟩], .ok (parsed, usage))

/-- The caller-side command loop of `cli.think` restricted to its transcript
effect: one `continue_reasoning` per command, stopping early when a call
fails.  Returns the final state of the transcript. -/
def run_rounds {E J U : Type} (system_prompt : String)
    (transport : List Turn → Except E (String × U))
    (jsonParse : String → Except E J) (repair : String → Except E String) :
    List Turn → List String → List Turn
  | messages, [] => messages
  | messages, command :: rest =>
    match continue_reasoning system_prompt transport jsonParse repair messages command with
    | (messages1, .ok _) => run_rounds system_prompt transport jsonParse repair messages1 rest
    | (messages1, .error _) => messages1

/-- The nested OpenAI-style `prompt_tokens_details` structure; `none` for the
`cached_tokens` field models an absent attribute (the `getattr` default). -/
structure PromptTokensDetails where
  cached_tokens : Option Nat
deriving DecidableEq, Repr

/-- A provider usage payload as `_extract_token_usage` probes it: the three
token counts are always present; `prompt_tokens_details = none` models the
attribute being absent or `None`, `prompt_cache_hit_tokens = none` models the
Deepseek-style flat attribute being absent. -/
structure ProviderUsage where
  prompt_tokens : Nat
  completion_tokens : Nat
  total_tokens : Nat
  prompt_tokens_details : Option PromptTokensDetails
  prompt_cache_hit_tokens : Option Nat
deriving DecidableEq, Repr

/-- The canonical `TokenUsage` named tuple; times are exact rationals. -/
structure TokenUsage where
  prompt_tokens : Nat
  completion_tokens : Nat
  total_tokens : Nat
  cached_tokens : Nat
  prompt_time : ℚ
  completion_time : ℚ
deriving DecidableEq, Repr

/-- Embedding of `LLMClient._extract_token_usage`: split the wall-clock time by the
prompt/total token proportion (0.5 when `total_tokens` is 0) and resolve
`cached_tokens` by probing the OpenAI-style nested structure first, then the
Deepseek-style flat field, defaulting to 0. -/
def extract_token_usage (usage : ProviderUsage) (total_time : ℚ) : TokenUsage :=
  let pRat : ℚ :=
    if usage.total_tokens > 0 then (usage.prompt_tokens : ℚ) / (usage.total_tokens : ℚ)
    else 1 / 2
  let prompt_time := total_time * pRat
  let completion_time := total_time * (1 - pRat)
  let cached_tokens : Nat :=
    match usage.prompt_tokens_details with
    | some details => details.cached_tokens.getD 0
    | none =>
      match usage.prompt_cache_hit_tokens with
      | some n => n
      | none => 0
  { prompt_tokens := usage.prompt_tokens
    completion_tokens := usage.completion_tokens
    total_tokens := usage.total_tokens
    cached_tokens := cached_tokens
    prompt_time := prompt_time
    completion_time := completion_time }

/-- A pricing table: price per 1,000,000 tokens of each bucket. -/
structure Pricing where
  input_tokens : ℚ
  cached_tokens : ℚ
  output_tokens : ℚ
deriving DecidableEq, Repr

/-- The cost-breakdown dict returned by `calculate_step_cost`. -/
structure StepCost where
  input_cost : ℚ
  cached_cost : ℚ
  output_cost : ℚ
  total_cost : ℚ
deriving DecidableEq, Repr

/-- Embedding of `ui.calculate_step_cost`: token counts are Python ints (the subtraction
is not clamped), prices are per-1M rates. -/
def calculate_step_cost (prompt_tokens cached_tokens completion_tokens : Int)
    (pricing : Pricing) : StepCost :=
  let effective_tokens : Int := prompt_tokens - cached_tokens
  let input_cost : ℚ := (effective_tokens : ℚ) * pricing.input_tokens / 1000000
  let cached_cost : ℚ := (cached_tokens : ℚ) * pricing.cached_tokens / 1000000
  let output_cost : ℚ := (completion_tokens : ℚ) * pricing.output_tokens / 1000000
  { input_cost := input_cost
    cached_cost := cached_cost
    output_cost := output_cost
    total_cost := input_cost + cached_cost + output_cost }

/-- The optional nested `solution` record of a parsed step; `type` is the
value of the `"type"` key (`none` when the key is absent). -/
structure Solution where
  type : Option String
  content : String
  completeness : Int
deriving DecidableEq, Repr

/-- A parsed step as the `cli.think` loop inspects it: the truthiness of
`step_data.get("is_final_result", False)` and the optional solution record. -/
structure Step where
  is_final_result : Bool
  solution : Option Solution
deriving DecidableEq, Repr

/-- Embedding of `step_data.get("solution", \x7b\x7d).get("type")`: the solution's type
string, `none` when the solution or its type key is absent. -/
def solution_type (step_data : Step) : Option String :=
  match step_data.solution with
  | some sol => sol.type
  | none => none

/-- The break condition of the `cli.think` command loop (cli.py line 186):
`step_data.get("is_final_result", False) or
step_data.get("solution", \x7b\x7d).get("type") == "FINAL"`. -/
def loop_breaks (step_data : Step) : Bool :=
  step_data.is_final_result || decide (solution_type step_data = some "FINAL")

/-! Theorems settling the claims. -/

/-- Claim C5: for every provider usage payload and wall-clock duration, the
normalizer computes `prompt_time = t * prompt_ratio` and
`completion_time = t * (1 - prompt_ratio)` where the ratio is
`prompt_tokens / total_tokens`, defaulting to `1/2` when `total_tokens = 0`
(no division-by-zero fault), and the two times sum to the wall-clock
duration exactly. -/
theorem C5_time_split (usage : ProviderUsage) (t : ℚ) :
    (extract_token_usage usage t).prompt_time =
      t * (if usage.total_tokens > 0 then
            (usage.prompt_tokens : ℚ) / (usage.total_tokens : ℚ) else 1 / 2) ∧
    (extract_token_usage usage t).completion_time =
      t * (1 - (if usage.total_tokens > 0 then
            (usage.prompt_tokens : ℚ) / (usage.total_tokens : ℚ) else 1 / 2)) ∧
    (extract_token_usage usage t).prompt_time + (extract_token_usage usage t).completion_time
      = t := by
  refine ⟨rfl, rfl, ?_⟩
  show t * _ + t * (1 - _) = t
  ring

/-- Claim C6: the cost breakdown satisfies the four stated equations, the
total being the exact sum of the other three (the model works in exact
rational arithmetic). -/
theorem C6_cost_formulas (prompt_tokens cached_tokens completion_tokens : Int)
    (pricing : Pricing) :
    (calculate_step_cost prompt_tokens cached_tokens completion_tokens pricing).input_cost =
      ((prompt_tokens - cached_tokens : Int) : ℚ) * pricing.input_tokens / 1000000 ∧
    (calculate_step_cost prompt_tokens cached_tokens completion_tokens pricing).cached_cost =
      (cached_tokens : ℚ) * pricing.cached_tokens / 1000000 ∧
    (calculate_step_cost prompt_tokens cached_tokens completion_tokens pricing).output_cost =
      (completion_tokens : ℚ) * pricing.output_tokens / 1000000 ∧
    (calculate_step_cost prompt_tokens cached_tokens completion_tokens pricing).total_cost =
      (calculate_step_cost prompt_tokens cached_tokens completion_tokens pricing).input_cost
        + (calculate_step_cost prompt_tokens cached_tokens completion_tokens pricing).cached_cost
        + (calculate_step_cost prompt_tokens cached_tokens completion_tokens pricing).output_cost :=
  ⟨rfl, rfl, rfl, rfl⟩

/-- Claim C4: `cached_tokens` is resolved by trying, in order, the nested
OpenAI-style structure's cached field when the structure is present, then the
flat Deepseek-style field when present, else 0; absence of both schemas is
not a failure (the normalizer is a total function). -/
theorem C4_cached_resolution (usage : ProviderUsage) (t : ℚ) :
    (∀ details, usage.prompt_tokens_details = some details →
      (extract_token_usage usage t).cached_tokens = details.cached_tokens.getD 0) ∧
    (∀ n, usage.prompt_tokens_details = none → usage.prompt_cache_hit_tokens = some n →
      (extract_token_usage usage t).cached_tokens = n) ∧
    (usage.prompt_tokens_details = none → usage.prompt_cache_hit_tokens = none →
      (extract_token_usage usage t).cached_tokens = 0) := by
  refine ⟨?_, ?_, ?_⟩
  · intro details h
    simp [extract_token_usage, h]
  · intro n h1 h2
    simp [extract_token_usage, h1, h2]
  · intro h1 h2
    simp [extract_token_usage, h1, h2]

/-- Witness for C4: the three resolution scenarios at concrete payloads
(nested cached field 20; flat field 30; neither schema). -/
theorem C4_witness :
    (extract_token_usage ⟨100, 50, 150, some ⟨some 20⟩, none⟩ 3).cached_tokens = 20 ∧
    (extract_token_usage ⟨100, 50, 150, none, some 30⟩ 3).cached_tokens = 30 ∧
    (extract_token_usage ⟨100, 50, 150, none, none⟩ 3).cached_tokens = 0 :=
  ⟨(C4_cached_resolution ⟨100, 50, 150, some ⟨some 20⟩, none⟩ 3).1 ⟨some 20⟩ rfl,
   (C4_cached_resolution ⟨100, 50, 150, none, some 30⟩ 3).2.1 30 rfl rfl,
   (C4_cached_resolution ⟨100, 50, 150, none, none⟩ 3).2.2 rfl rfl⟩

/-- Claim C8: the command loop's step-driven break fires exactly when the
step's `is_final_result` flag is set or its solution type is `"FINAL"`
(either signal alone suffices); a step with solution type `"PARTIAL"` or
`"NONE"` and the flag unset does not break the loop. -/
theorem C8_loop_break (step_data : Step) :
    (loop_breaks step_data = true ↔
      (step_data.is_final_result = true ∨ solution_type step_data = some "FINAL")) ∧
    (step_data.is_final_result = false →
      (solution_type step_data = some "PARTIAL" ∨ solution_type step_data = some "NONE") →
      loop_breaks step_data = false) := by
  constructor
  · simp [loop_breaks]
  · intro h1 h2
    rcases h2 with h2 | h2 <;> simp [loop_breaks, h1, h2]

/-- Witness for C8: a step with a `"PARTIAL"` solution at completeness 50 and
the flag unset does not break the loop, while a `"FINAL"` one does. -/
theorem C8_witness :
    loop_breaks ⟨false, some ⟨some "PARTIAL", "work", 50⟩⟩ = false ∧
    loop_breaks ⟨false, some ⟨some "FINAL", "done", 100⟩⟩ = true :=
  ⟨(C8_loop_break ⟨false, some ⟨some "PARTIAL", "work", 50⟩⟩).2 rfl (Or.inl rfl),
   (C8_loop_break ⟨false, some ⟨some "FINAL", "done", 100⟩⟩).1.mpr (Or.inr rfl)⟩

/-- Claim C7: the formatted task message is the `TASK:` line followed by the
`MODE:`, `REASONING_LANGUAGE:` and `MAX_STEPS:` lines, each present exactly
when the parameter differs from its default (`EXPLORE_OPTIMAL`, `English`,
10) and in that order; with all defaults the message is the `TASK:` line
alone. -/
theorem C7_task_message (task mode language : String) (max_steps : Int) :
    format_task_message task mode language max_steps =
      "TASK: ```" ++ task ++ "```\n"
        ++ (if mode = "EXPLORE_OPTIMAL" then "" else "MODE: " ++ mode ++ "\n")
        ++ (if language = "English" then "" else "REASONING_LANGUAGE: " ++ language ++ "\n")
        ++ (if max_steps = 10 then "" else "MAX_STEPS: " ++ toString max_steps ++ "\n") ∧
    format_task_message task "EXPLORE_OPTIMAL" "English" 10 = "TASK: ```" ++ task ++ "```\n" := by
  constructor
  · by_cases hm : mode = "EXPLORE_OPTIMAL" <;>
      by_cases hl : language = "English" <;>
      by_cases hs : max_steps = 10 <;>
      simp [format_task_message, hm, hl, hs, String.append_empty, String.append_assoc] <;>
      rfl
  · simp [format_task_message, String.append_empty]

/-- Counterexample for C2: with `prompt_tokens = 10`, `cached_tokens = 20`
and unit prices, the calculator neither clamps nor fails — it returns a
strictly negative `input_cost` and `total_cost`, so the claimed
non-negativity of all four returned amounts is false. -/
theorem C2_counterexample :
    (calculate_step_cost 10 20 0 ⟨1, 0, 1⟩).input_cost < 0 ∧
    (calculate_step_cost 10 20 0 ⟨1, 0, 1⟩).total_cost < 0 ∧
    ¬ (0 ≤ (calculate_step_cost 10 20 0 ⟨1, 0, 1⟩).input_cost) := by
  refine ⟨?_, ?_, ?_⟩ <;> norm_num [calculate_step_cost]

/-- Amended C2: the calculator performs no clamping and has no error path;
it proceeds with `effective_prompt_tokens = prompt_tokens - cached_tokens`
even when that is negative.  When the inputs are well-formed — cached and
completion counts non-negative, `cached_tokens ≤ prompt_tokens`, prices
non-negative — all four returned cost amounts are non-negative. -/
theorem C2_amended_nonneg (prompt_tokens cached_tokens completion_tokens : Int)
    (pricing : Pricing) (hc : 0 ≤ cached_tokens) (hcp : cached_tokens ≤ prompt_tokens)
    (ho : 0 ≤ completion_tokens) (hpi : 0 ≤ pricing.input_tokens)
    (hpc : 0 ≤ pricing.cached_tokens) (hpo : 0 ≤ pricing.output_tokens) :
    0 ≤ (calculate_step_cost prompt_tokens cached_tokens completion_tokens pricing).input_cost ∧
    0 ≤ (calculate_step_cost prompt_tokens cached_tokens completion_tokens pricing).cached_cost ∧
    0 ≤ (calculate_step_cost prompt_tokens cached_tokens completion_tokens pricing).output_cost ∧
    0 ≤ (calculate_step_cost prompt_tokens cached_tokens completion_tokens pricing).total_cost := by
  have he : (0 : ℚ) ≤ ((prompt_tokens - cached_tokens : Int) : ℚ) := by
    exact_mod_cast Int.sub_nonneg.mpr hcp
  have hc' : (0 : ℚ) ≤ (cached_tokens : Int) := by exact_mod_cast hc
  have ho' : (0 : ℚ) ≤ (completion_tokens : Int) := by exact_mod_cast ho
  have h1 : 0 ≤ (calculate_step_cost prompt_tokens cached_tokens completion_tokens pricing).input_cost :=
    div_nonneg (mul_nonneg he hpi) (by norm_num)
  have h2 : 0 ≤ (calculate_step_cost prompt_tokens cached_tokens completion_tokens pricing).cached_cost :=
    div_nonneg (mul_nonneg hc' hpc) (by norm_num)
  have h3 : 0 ≤ (calculate_step_cost prompt_tokens cached_tokens completion_tokens pricing).output_cost :=
    div_nonneg (mul_nonneg ho' hpo) (by norm_num)
  exact ⟨h1, h2, h3, add_nonneg (add_nonneg h1 h2) h3⟩

/-- Witness for C2's amended theorem: the spec's own example
(`prompt=100, cached=20, completion=50`, prices 5/1/15 per 1M) has
non-negative costs. -/
theorem C2_witness :
    0 ≤ (calculate_step_cost 100 20 50 ⟨5, 1, 15⟩).input_cost ∧
    0 ≤ (calculate_step_cost 100 20 50 ⟨5, 1, 15⟩).cached_cost ∧
    0 ≤ (calculate_step_cost 100 20 50 ⟨5, 1, 15⟩).output_cost ∧
    0 ≤ (calculate_step_cost 100 20 50 ⟨5, 1, 15⟩).total_cost :=
  C2_amended_nonneg 100 20 50 ⟨5, 1, 15⟩ (by norm_num) (by norm_num) (by norm_num)
    (by norm_num) (by norm_num) (by norm_num)

/-- Claim C3: the cascade returns the first succeeding stage — the strict
parse of the raw text, else the strict parse of the extracted fenced content,
else the repair-then-parse of that content — and it fails exactly when all
three stages fail, the failure being the one produced by the last stage
(the underlying parse or repair error). -/
theorem C3_parse_cascade {E J : Type} (jsonParse : String → Except E J)
    (repair : String → Except E String) (content : String) :
    (∀ v, jsonParse content = .ok v →
      parse_response_content jsonParse repair content = .ok v) ∧
    (∀ e v, jsonParse content = .error e →
      jsonParse (extract_json_from_markdown content) = .ok v →
      parse_response_content jsonParse repair content = .ok v) ∧
    (∀ e1 e2, jsonParse content = .error e1 →
      jsonParse (extract_json_from_markdown content) = .error e2 →
      parse_response_content jsonParse repair content =
        (repair (extract_json_from_markdown content)).bind jsonParse) ∧
    ((∃ e, parse_response_content jsonParse repair content = .error e) ↔
      ((∃ e, jsonParse content = .error e) ∧
       (∃ e, jsonParse (extract_json_from_markdown content) = .error e) ∧
       (∃ e, (repair (extract_json_from_markdown content)).bind jsonParse = .error e))) := by
  refine ⟨?_, ?_, ?_, ?_⟩
  · intro v h
    simp [parse_response_content, h]
  · intro e v h1 h2
    simp [parse_response_content, h1, h2]
  · intro e1 e2 h1 h2
    simp [parse_response_content, h1, h2]
  · cases h1 : jsonParse content with
    | ok v =>
      simp [parse_response_content, h1]
    | error e =>
      cases h2 : jsonParse (extract_json_from_markdown content) with
      | ok v => simp [parse_response_content, h1, h2]
      | error e2 =>
        cases h3 : (repair (extract_json_from_markdown content)).bind jsonParse with
        | ok v =>
          simp [parse_response_content, h1, h2, h3]
        | error e3 =>
          simp [parse_response_content, h1, h2, h3]

/-- A toy strict parser for witnesses: accepts exactly the text `"ok"`. -/
def jpTest : String → Except Nat Nat :=
  fun s => if s = "ok" then .ok 1 else .error 0

/-- A toy repairer that always rewrites its input to `"ok"`. -/
def rpOk : String → Except Nat String := fun _ => .ok "ok"

/-- A toy repairer that returns its input unchanged (a best-effort repair
that fixes nothing). -/
def rpId : String → Except Nat String := fun s => .ok s

/-- Witness for C3: stage 1 succeeds on raw `"ok"`; stage 2 succeeds on a
fenced `"ok"`; stage 3 succeeds when only the repairer can fix the text;
and with a no-op repairer an unparseable text makes all three stages fail,
producing the error. -/
theorem C3_witness :
    parse_response_content jpTest rpId "ok" = .ok 1 ∧
    parse_response_content jpTest rpId "```ok```" = .ok 1 ∧
    parse_response_content jpTest rpOk "zzz" = .ok 1 ∧
    (∃ e, parse_response_content jpTest rpId "zzz" = .error e) := by
  refine ⟨(C3_parse_cascade jpTest rpId "ok").1 1 rfl,
    (C3_parse_cascade jpTest rpId "```ok```").2.1 0 1 rfl (by rfl),
    ?_, ?_⟩
  · have h := (C3_parse_cascade jpTest rpOk "zzz").2.2.1 0 0 rfl (by rfl)
    exact h.trans rfl
  · exact (C3_parse_cascade jpTest rpId "zzz").2.2.2.mpr ⟨⟨0, rfl⟩, ⟨0, by rfl⟩, ⟨0, by rfl⟩⟩

/-- The raw text used to settle C10: two fenced blocks, the first holding
unparseable content, the second holding exactly a JSON object. -/
def twoBlockText : String := "```notjson``` and ```\x7b\"a\": 1\x7d```"

/-- A toy strict parser accepting exactly the second block's JSON text. -/
def jpSecond : String → Except Nat Nat :=
  fun s => if s = "\x7b\"a\": 1\x7d" then .ok 1 else .error 0

/-- Claim C10: extraction uses only the first fenced block — on a text whose
first block is unparseable (even after a no-op repair) and whose second
block is exactly valid JSON, extraction returns the first block's content
and the cascade fails rather than returning the second block's object. -/
theorem C10_first_fence_only :
    extract_json_from_markdown twoBlockText = "notjson" ∧
    jpSecond "\x7b\"a\": 1\x7d" = .ok 1 ∧
    (∃ e, parse_response_content jpSecond rpId twoBlockText = .error e) := by
  refine ⟨by rfl, rfl, ⟨0, by rfl⟩⟩

/-- A successful `continue_reasoning` call appends exactly the user command
turn and one assistant turn holding the raw reply; the prior transcript is
untouched. -/
lemma continue_reasoning_ok {E J U : Type} (system_prompt : String)
    (transport : List Turn → Except E (String × U))
    (jsonParse : String → Except E J) (repair : String → Except E String)
    (htp : ∀ m, ∃ ru : String × U, transport m = .ok ru)
    (hjp : ∀ s, ∃ v : J, jsonParse s = .ok v)
    (messages : List Turn) (command : String) :
    ∃ raw v u, continue_reasoning system_prompt transport jsonParse repair messages command =
      (messages ++ [⟨"user", command⟩, ⟨"assistant", raw⟩], .ok (v, u)) := by
  obtain ⟨⟨raw, u⟩, hru⟩ :=
    htp (⟨"system", system_prompt⟩ :: (messages ++ [⟨"user", command⟩]))
  obtain ⟨v, hv⟩ := hjp raw
  refine ⟨raw, v, u, ?_⟩
  simp [continue_reasoning, get_completion, hru, parse_response_content, hv]

/-- Whatever happens, `continue_reasoning` only ever appends turns to the
transcript it was given. -/
lemma continue_reasoning_extends {E J U : Type} (system_prompt : String)
    (transport : List Turn → Except E (String × U))
    (jsonParse : String → Except E J) (repair : String → Except E String)
    (messages : List Turn) (command : String) :
    ∃ t, (continue_reasoning system_prompt transport jsonParse repair messages command).1 =
      messages ++ t := by
  unfold continue_reasoning
  cases h : get_completion system_prompt transport jsonParse repair
    (messages ++ [⟨"user", command⟩]) with
  | error e => exact ⟨[⟨"user", command⟩], by simp [h]⟩
  | ok r => exact ⟨[⟨"user", command⟩] ++ [⟨"assistant", r.2.2⟩], by simp [h]⟩

/-- One loop step whose `continue_reasoning` call succeeds: the loop goes
on with the extended transcript. -/
lemma run_rounds_cons_ok {E J U : Type} (system_prompt : String)
    (transport : List Turn → Except E (String × U))
    (jsonParse : String → Except E J) (repair : String → Except E String)
    (messages m1 : List Turn) (c : String) (cs : List String) (x : J × U)
    (h : continue_reasoning system_prompt transport jsonParse repair messages c =
      (m1, .ok x)) :
    run_rounds system_prompt transport jsonParse repair messages (c :: cs) =
      run_rounds system_prompt transport jsonParse repair m1 cs := by
  simp only [run_rounds, h]

/-- One loop step whose `continue_reasoning` call fails: the loop stops with
that call's transcript. -/
lemma run_rounds_cons_error {E J U : Type} (system_prompt : String)
    (transport : List Turn → Except E (String × U))
    (jsonParse : String → Except E J) (repair : String → Except E String)
    (messages m1 : List Turn) (c : String) (cs : List String) (e : E)
    (h : continue_reasoning system_prompt transport jsonParse repair messages c =
      (m1, .error e)) :
    run_rounds system_prompt transport jsonParse repair messages (c :: cs) = m1 := by
  simp only [run_rounds, h]

/-- The command loop only ever appends turns to the transcript it starts
from. -/
lemma run_rounds_extends {E J U : Type} (system_prompt : String)
    (transport : List Turn → Except E (String × U))
    (jsonParse : String → Except E J) (repair : String → Except E String) :
    ∀ (commands : List String) (messages : List Turn),
      ∃ t, run_rounds system_prompt transport jsonParse repair messages commands =
        messages ++ t := by
  intro commands
  induction commands with
  | nil => intro messages; exact ⟨[], by simp [run_rounds]⟩
  | cons c cs ih =>
    intro messages
    obtain ⟨t1, ht1⟩ :=
      continue_reasoning_extends system_prompt transport jsonParse repair messages c
    cases h : continue_reasoning system_prompt transport jsonParse repair messages c with
    | mk m1 r =>
      rw [h] at ht1
      have ht1' : m1 = messages ++ t1 := ht1
      cases r with
      | error e =>
        exact ⟨t1, by
          rw [run_rounds_cons_error system_prompt transport jsonParse repair messages m1 c cs e h]
          exact ht1'⟩
      | ok x =>
        obtain ⟨t2, ht2⟩ := ih m1
        exact ⟨t1 ++ t2, by
          rw [run_rounds_cons_ok system_prompt transport jsonParse repair messages m1 c cs x h,
            ht2, ht1', List.append_assoc]⟩

/-- When the transport and the strict parse always succeed, each round of
the loop grows the transcript by exactly two turns. -/
lemma run_rounds_length_of_ok {E J U : Type} (system_prompt : String)
    (transport : List Turn → Except E (String × U))
    (jsonParse : String → Except E J) (repair : String → Except E String)
    (htp : ∀ m, ∃ ru : String × U, transport m = .ok ru)
    (hjp : ∀ s, ∃ v : J, jsonParse s = .ok v) :
    ∀ (commands : List String) (messages : List Turn),
      (run_rounds system_prompt transport jsonParse repair messages commands).length =
        messages.length + 2 * commands.length := by
  intro commands
  induction commands with
  | nil => intro messages; simp [run_rounds]
  | cons c cs ih =>
    intro messages
    obtain ⟨raw, v, u, h⟩ :=
      continue_reasoning_ok system_prompt transport jsonParse repair htp hjp messages c
    rw [run_rounds_cons_ok system_prompt transport jsonParse repair messages _ c cs (v, u) h,
      ih]
    simp [List.length_append]
    ring

/-- When every call succeeds, running the loop on a split command list is
running it on the first part and then on the second. -/
lemma run_rounds_append_of_ok {E J U : Type} (system_prompt : String)
    (transport : List Turn → Except E (String × U))
    (jsonParse : String → Except E J) (repair : String → Except E String)
    (htp : ∀ m, ∃ ru : String × U, transport m = .ok ru)
    (hjp : ∀ s, ∃ v : J, jsonParse s = .ok v) :
    ∀ (cs1 cs2 : List String) (messages : List Turn),
      run_rounds system_prompt transport jsonParse repair messages (cs1 ++ cs2) =
        run_rounds system_prompt transport jsonParse repair
          (run_rounds system_prompt transport jsonParse repair messages cs1) cs2 := by
  intro cs1
  induction cs1 with
  | nil => intro cs2 messages; simp [run_rounds]
  | cons c cs ih =>
    intro cs2 messages
    obtain ⟨raw, v, u, h⟩ :=
      continue_reasoning_ok system_prompt transport jsonParse repair htp hjp messages c
    rw [List.cons_append,
      run_rounds_cons_ok system_prompt transport jsonParse repair messages _ c (cs ++ cs2) (v, u) h,
      run_rounds_cons_ok system_prompt transport jsonParse repair messages _ c cs (v, u) h]
    exact ih cs2 _

/-- A successful `start_reasoning` call produces exactly the initial user
task turn followed by one assistant turn holding the raw reply. -/
lemma start_reasoning_ok {E J U : Type} (system_prompt : String)
    (transport : List Turn → Except E (String × U))
    (jsonParse : String → Except E J) (repair : String → Except E String)
    (htp : ∀ m, ∃ ru : String × U, transport m = .ok ru)
    (hjp : ∀ s, ∃ v : J, jsonParse s = .ok v)
    (task mode language : String) (max_steps : Int) :
    ∃ raw v u,
      start_reasoning system_prompt transport jsonParse repair task mode language max_steps =
        ([⟨"user", format_task_message task mode language max_steps⟩, ⟨"assistant", raw⟩],
          .ok (v, u)) := by
  obtain ⟨⟨raw, u⟩, hru⟩ :=
    htp (⟨"system", system_prompt⟩ ::
      [⟨"user", format_task_message task mode language max_steps⟩])
  obtain ⟨v, hv⟩ := hjp raw
  refine ⟨raw, v, u, ?_⟩
  simp [start_reasoning, get_completion, hru, parse_response_content, hv]

/-- Claim C9: when a `continue_reasoning` call fails (transport or parse),
the whole operation fails and no assistant turn is appended — the transcript
is left at its prior state plus the already-appended outbound user command
turn; likewise a failing `start_reasoning` leaves only the initial user task
turn. -/
theorem C9_failure_transcript {E J U : Type} (system_prompt : String)
    (transport : List Turn → Except E (String × U))
    (jsonParse : String → Except E J) (repair : String → Except E String)
    (messages : List Turn) (command : String)
    (task mode language : String) (max_steps : Int) :
    (∀ e : E,
      (continue_reasoning system_prompt transport jsonParse repair messages command).2 =
        .error e →
      (continue_reasoning system_prompt transport jsonParse repair messages command).1 =
        messages ++ [⟨"user", command⟩]) ∧
    (∀ e : E,
      (start_reasoning system_prompt transport jsonParse repair task mode language max_steps).2 =
        .error e →
      (start_reasoning system_prompt transport jsonParse repair task mode language max_steps).1 =
        [⟨"user", format_task_message task mode language max_steps⟩]) := by
  constructor
  · intro e he
    cases h : get_completion system_prompt transport jsonParse repair
        (messages ++ [⟨"user", command⟩]) with
    | error e2 => simp [continue_reasoning, h]
    | ok r =>
      obtain ⟨p, u2, raw⟩ := r
      simp [continue_reasoning, h] at he
  · intro e he
    cases h : get_completion system_prompt transport jsonParse repair
        [⟨"user", format_task_message task mode language max_steps⟩] with
    | error e2 => simp [start_reasoning, h]
    | ok r =>
      obtain ⟨p, u2, raw⟩ := r
      simp [start_reasoning, h] at he

/-- A transport that always fails (a failing HTTP call). -/
def failTransport : List Turn → Except Nat (String × Nat) := fun _ => .error 5

/-- A transport that always succeeds with the fixed raw reply `"reply"`. -/
def okTransport : List Turn → Except Nat (String × Nat) := fun _ => .ok ("reply", 0)

/-- A strict parser that accepts every text (stage 1 always succeeds). -/
def okJsonParse : String → Except Nat Nat := fun _ => .ok 7

/-- A strict parser that rejects every text. -/
def badJsonParse : String → Except Nat Nat := fun _ => .error 3

/-- Witness for C9: a failing transport leaves `continue` with only the
appended user command turn and leaves `start` with only the task turn; a
response no stage can parse does the same for `continue`. -/
theorem C9_witness :
    (continue_reasoning "sys" failTransport okJsonParse rpId [] "CONTINUE").1 =
      [⟨"user", "CONTINUE"⟩] ∧
    (start_reasoning "sys" failTransport okJsonParse rpId "X" "EXPLORE_OPTIMAL" "English" 10).1 =
      [⟨"user", format_task_message "X" "EXPLORE_OPTIMAL" "English" 10⟩] ∧
    (continue_reasoning "sys" okTransport badJsonParse rpId [] "CONTINUE").1 =
      [⟨"user", "CONTINUE"⟩] :=
  ⟨(C9_failure_transcript "sys" failTransport okJsonParse rpId [] "CONTINUE"
      "X" "EXPLORE_OPTIMAL" "English" 10).1 5 rfl,
   (C9_failure_transcript "sys" failTransport okJsonParse rpId [] "CONTINUE"
      "X" "EXPLORE_OPTIMAL" "English" 10).2 5 rfl,
   (C9_failure_transcript "sys" okTransport badJsonParse rpId [] "CONTINUE"
      "X" "EXPLORE_OPTIMAL" "English" 10).1 3 rfl⟩

/-- Counterexample for C1: with an always-succeeding transport and parser, a
session of `start` followed by N = 1 round of `continue` yields a transcript
of 4 turns, not the claimed 1 + 2·1 = 3 — the claim's count omits the
assistant reply appended by `start` itself. -/
theorem C1_counterexample :
    (run_rounds "sys" okTransport okJsonParse rpId
      ((start_reasoning "sys" okTransport okJsonParse rpId
        "X" "EXPLORE_OPTIMAL" "English" 10).1)
      ["CONTINUE"]).length = 4 ∧
    (4 : Nat) ≠ 1 + 2 * 1 := by
  exact ⟨rfl, by norm_num⟩

/-- Amended C1: after a successful `start` and N successful rounds of
`continue`, the transcript contains exactly 2 + 2N turns — the initial user
turn, the assistant reply appended by `start`, and per round one user
command turn plus one assistant reply turn — and the transcript is
append-only: after any first k rounds it is extended, never edited, so every
earlier turn survives byte-identically. -/
theorem C1_amended_transcript {E J U : Type} (system_prompt : String)
    (transport : List Turn → Except E (String × U))
    (jsonParse : String → Except E J) (repair : String → Except E String)
    (task mode language : String) (max_steps : Int) (commands : List String)
    (htp : ∀ m, ∃ ru : String × U, transport m = .ok ru)
    (hjp : ∀ s, ∃ v : J, jsonParse s = .ok v) :
    ((start_reasoning system_prompt transport jsonParse repair
        task mode language max_steps).1).length = 2 ∧
    (run_rounds system_prompt transport jsonParse repair
      ((start_reasoning system_prompt transport jsonParse repair
        task mode language max_steps).1) commands).length = 2 + 2 * commands.length ∧
    (∀ messages c, ∃ raw v u,
      continue_reasoning system_prompt transport jsonParse repair messages c =
        (messages ++ [⟨"user", c⟩, ⟨"assistant", raw⟩], .ok (v, u))) ∧
    (∀ k, ∃ t,
      run_rounds system_prompt transport jsonParse repair
        ((start_reasoning system_prompt transport jsonParse repair
          task mode language max_steps).1) commands =
      run_rounds system_prompt transport jsonParse repair
        ((start_reasoning system_prompt transport jsonParse repair
          task mode language max_steps).1) (commands.take k) ++ t) := by
  obtain ⟨raw, v, u, hs⟩ := start_reasoning_ok system_prompt transport jsonParse repair
    htp hjp task mode language max_steps
  have hlen : ((start_reasoning system_prompt transport jsonParse repair
      task mode language max_steps).1).length = 2 := by
    rw [hs]
    rfl
  refine ⟨hlen, ?_, ?_, ?_⟩
  · rw [run_rounds_length_of_ok system_prompt transport jsonParse repair htp hjp, hlen,
      Nat.add_comm]
  · intro messages c
    exact continue_reasoning_ok system_prompt transport jsonParse repair htp hjp messages c
  · intro k
    obtain ⟨t, ht⟩ := run_rounds_extends system_prompt transport jsonParse repair
      (commands.drop k)
      (run_rounds system_prompt transport jsonParse repair
        ((start_reasoning system_prompt transport jsonParse repair
          task mode language max_steps).1) (commands.take k))
    refine ⟨t, ?_⟩
    conv_lhs => rw [← List.take_append_drop k commands]
    rw [run_rounds_append_of_ok system_prompt transport jsonParse repair htp hjp
      (commands.take k) (commands.drop k)]
    exact ht

/-- Witness for C1's amended theorem: with the always-succeeding toy
transport and parser, `start` yields 2 turns, two rounds of `continue` yield
6 turns, and the transcript after both rounds extends the one after the
first round. -/
theorem C1_witness :
    ((start_reasoning "sys" okTransport okJsonParse rpId
      "X" "EXPLORE_OPTIMAL" "English" 10).1).length = 2 ∧
    (run_rounds "sys" okTransport okJsonParse rpId
      ((start_reasoning "sys" okTransport okJsonParse rpId
        "X" "EXPLORE_OPTIMAL" "English" 10).1) ["CONTINUE", "GO_VERY_WRONG"]).length =
      2 + 2 * 2 ∧
    (∃ t, run_rounds "sys" okTransport okJsonParse rpId
      ((start_reasoning "sys" okTransport okJsonParse rpId
        "X" "EXPLORE_OPTIMAL" "English" 10).1) ["CONTINUE", "GO_VERY_WRONG"] =
      run_rounds "sys" okTransport okJsonParse rpId
        ((start_reasoning "sys" okTransport okJsonParse rpId
          "X" "EXPLORE_OPTIMAL" "English" 10).1)
        (["CONTINUE", "GO_VERY_WRONG"].take 1) ++ t) := by
  have h := C1_amended_transcript "sys" okTransport okJsonParse rpId
    "X" "EXPLORE_OPTIMAL" "English" 10 ["CONTINUE", "GO_VERY_WRONG"]
    (fun m => ⟨("reply", 0), rfl⟩) (fun s => ⟨7, rfl⟩)
  exact ⟨h.1, h.2.1, h.2.2.2 1⟩

end ThinkingMachines
